import Mathlib

/-!
Verification of the docrun repository: a shallow embedding of
`docker_runner.py`, `docker_runner_gui.py` and `testit.py`, together with
theorems settling the behavioural claims about the Executor, the parallel
Dispatcher, the report renderer and the Fibonacci demo.
-/

/-- Result tuple `(identifier, stdout, stderr)` returned by the executors:
the Python code uses a plain 3-tuple whose first component is the task
identifier (the command string in the GUI variant), the second the captured
standard output (`None` on failure) and the third the error description
(`None` on success). -/
abbrev Outcome := String × Option String × Option String

/-- Result of the external `subprocess.run(cmd, capture_output=True,
text=True, check=True)` call: either the process ran to completion with an
exit code and captured stdout/stderr (with `check=True`, a non-zero exit
code raises `CalledProcessError` carrying the captured streams), or the
process could not be started at all (e.g. `FileNotFoundError`), carrying
the exception message `str(e)`. -/
inductive SubprocessResult where
  | completed (exitCode : Nat) (stdout stderr : String)
  | startFailure (msg : String)
deriving DecidableEq, Repr

/-- The external environment: what the docker invocation built from a given
command string does when run. The executors are pure functions of the
command and of this observation. -/
abbrev Env := String → SubprocessResult

/-- Result of running a Python function that may raise: either a returned
value or a propagated exception, identified by its class name. -/
inductive PyResult (α : Type) where
  | ok (a : α)
  | exn (exnName : String)
deriving DecidableEq, Repr

/-- ASCII whitespace characters removed by Python `str.strip()` (the
Unicode-only space characters are outside the alphabet used by this
program). -/
def isPySpace (c : Char) : Bool :=
  c = ' ' || c = '\t' || c = '\n' || c = '\r' || c = '\x0b' || c = '\x0c'

/-- Python `str.strip()`: remove leading and trailing whitespace. -/
def pyStrip (s : String) : String :=
  String.mk (((s.data.dropWhile isPySpace).reverse.dropWhile isPySpace).reverse)

/-- `DockerRunnerGUI.run_docker_container` (docker_runner_gui.py, lines
179-202): runs the docker command for `command`; exit 0 returns
`(command, stdout.strip(), None)`; `CalledProcessError` (non-zero exit
under `check=True`) returns `(command, None, "Error: " + e.stderr.strip())`;
any other exception `e` returns `(command, None, "Error: " + str(e))`. -/
def DockerRunnerGUI.run_docker_container (env : Env) (command : String) : Outcome :=
  match env command with
  | .completed 0 stdout _ => (command, some (pyStrip stdout), none)
  | .completed _ _ stderr => (command, none, some ("Error: " ++ pyStrip stderr))
  | .startFailure msg => (command, none, some ("Error: " ++ msg))

/-- `run_docker_container` (docker_runner.py, lines 11-42): the parameter is
named `command`, but every `return` statement references the name `index`,
which is defined nowhere in the function or module. Consequently every
execution path raises `NameError`: on exit 0 the `return (index, ...)`
inside `try` raises `NameError`, which is caught by `except Exception`,
whose own `return (index, ...)` raises `NameError` again, this time
uncaught; on `CalledProcessError` the handler's `return (index, ...)`
raises `NameError` inside the handler, which sibling handlers of the same
`try` do not catch; on a start failure the `except Exception` handler's
`return (index, ...)` raises `NameError` uncaught. -/
def run_docker_container (env : Env) (command : String) : PyResult Outcome :=
  match env command with
  | .completed 0 _ _ => .exn "NameError"
  | .completed _ _ _ => .exn "NameError"
  | .startFailure _ => .exn "NameError"

/-- The `for future in as_completed(...): results.append(future.result())`
loop shared by both dispatchers, for an executor that returns normally.
`order` is the nondeterministic completion order produced by
`as_completed`: a permutation of the submitted command list (each submitted
future is yielded exactly once). -/
def collect_as_completed (exec : String → Outcome) (order : List String) : List Outcome :=
  order.foldl (fun results c => results ++ [exec c]) []

/-- Comparison used by `results.sort(key=lambda x: x[0])`: order result
tuples by their first component, the task identifier. -/
def byIndex (a b : Outcome) : Prop := a.1 ≤ b.1

instance : DecidableRel byIndex := fun a b => inferInstanceAs (Decidable (a.1 ≤ b.1))

instance : IsTotal Outcome byIndex := ⟨fun a b => le_total a.1 b.1⟩

instance : IsTrans Outcome byIndex := ⟨fun _ _ _ hab hbc => le_trans hab hbc⟩

/-- The `results.sort(key=lambda x: x[0])` step of docker_runner.py line 71.
Python's sort is stable; insertion sort is stable as well, and on the
inputs considered here (pairwise-distinct keys, or equal elements under
equal keys) any stable sort produces the same list. -/
def sortByIndex (results : List Outcome) : List Outcome :=
  results.insertionSort byIndex

/-- `run_containers_parallel` (docker_runner.py, lines 45-72), parametrised
over the per-task executor results (the spec treats the Executor as a black
box honouring its outcome contract) and over the `as_completed` completion
order: submit every command, append each result as it completes, then sort
the collected results by their first tuple component. `num_containers` is
passed to `ThreadPoolExecutor(max_workers=num_containers)` and does not
affect the collected value. -/
def run_containers_parallel (exec : String → Outcome) (num_containers : Nat)
    (order : List String) : List Outcome :=
  sortByIndex (collect_as_completed exec order)

/-- `DockerRunnerGUI.run_containers_parallel` (docker_runner_gui.py, lines
204-220): same submission and collection loop, but the collected list is
returned as-is, in completion order — there is no sort step. -/
def DockerRunnerGUI.run_containers_parallel (exec : String → Outcome) (max_workers : Nat)
    (order : List String) : List Outcome :=
  collect_as_completed exec order

/-- The collection loop of either dispatcher composed with the CLI file's
own (raising) executor: `future.result()` re-raises the executor's
exception out of the dispatcher. -/
def collect_results (env : Env) : List String → PyResult (List Outcome)
  | [] => .ok []
  | c :: cs =>
    match run_docker_container env c with
    | .exn e => .exn e
    | .ok o =>
      match collect_results env cs with
      | .exn e => .exn e
      | .ok rest => .ok (o :: rest)

/-- `run_containers_parallel` of docker_runner.py as actually composed with
the file's own `run_docker_container`: collect (re-raising any executor
exception), then sort. -/
def run_containers_parallel_run (env : Env) (num_containers : Nat)
    (order : List String) : PyResult (List Outcome) :=
  match collect_results env order with
  | .exn e => .exn e
  | .ok rs => .ok (sortByIndex rs)

/-- Accumulating decimal-digit parser for the model of Python `int()`. -/
def parseDigitsAux : List Char → Nat → Option Nat
  | [], acc => some acc
  | c :: cs, acc =>
    if c.isDigit then parseDigitsAux cs (acc * 10 + (c.toNat - 48)) else none

/-- Model of Python `int(s)`: surrounding whitespace is ignored, then an
optionally signed nonempty decimal-digit run is parsed (underscore
grouping is outside the inputs this program meets); anything else raises
`ValueError`, modelled as `none`. -/
def int_parse (s : String) : Option Int :=
  match (pyStrip s).data with
  | [] => none
  | '+' :: [] => none
  | '+' :: d :: ds => (parseDigitsAux (d :: ds) 0).map (fun n => (n : Int))
  | '-' :: [] => none
  | '-' :: d :: ds => (parseDigitsAux (d :: ds) 0).map (fun n => -(n : Int))
  | ds => (parseDigitsAux ds 0).map (fun n => (n : Int))

/-- The fixed command list of `main` (docker_runner.py, lines 123-125). -/
def main_commands : List String := ["test 1", "test 2", "test 3"]

/-- Observable process outcome of the CLI `main`: `usage` prints the
invalid-argument/usage message and calls `sys.exit(1)`; `crashed e` is an
uncaught exception `e` propagating out of `main` (the interpreter then
exits with a non-zero status and a traceback); `report rs` prints the
aggregated report for `rs` and falls off the end of `main` (exit status 0). -/
inductive CliExit where
  | usage
  | crashed (exnName : String)
  | report (results : List Outcome)
deriving DecidableEq, Repr

/-- Argument handling of `main` (docker_runner.py, lines 105-119): no
argument keeps the default 5; otherwise `int(sys.argv[1])` is parsed, and a
`ValueError` (non-integer, or the explicit `raise` when the value is `< 1`)
leads to the usage message and `sys.exit(1)`. -/
def parse_num_containers (arg : Option String) : Option Nat :=
  match arg with
  | none => some 5
  | some s =>
    match int_parse s with
    | none => none
    | some n => if n < 1 then none else some n.toNat

/-- `main` (docker_runner.py, lines 105-131): parse the worker-count
argument (usage + exit 1 on failure, before any dispatch), then run
`run_containers_parallel` on the fixed nonempty command list with the
file's own executor — whose `NameError` propagates uncaught — and on a
normal return print the report and exit 0. -/
def main_cli (env : Env) (arg : Option String) : CliExit :=
  match parse_num_containers arg with
  | none => .usage
  | some w =>
    match run_containers_parallel_run env w main_commands with
    | .exn e => .crashed e
    | .ok rs => .report rs

/-- `DockerRunnerGUI.validate_max_workers` (docker_runner_gui.py, lines
122-131): `int()` failure or a value `< 1` (the explicit `raise` inside the
same `try`) is caught by `except ValueError`, which shows an error box and
returns `None`; otherwise the parsed value is returned. `run_containers`
returns immediately when this yields `None`, before any dispatch. -/
def DockerRunnerGUI.validate_max_workers (s : String) : Option Nat :=
  match int_parse s with
  | none => none
  | some n => if n < 1 then none else some n.toNat

/-- The `max_workers` argument handed to `ThreadPoolExecutor` by
`run_containers_parallel` (docker_runner.py line 58, docker_runner_gui.py
line 208): the requested bound is passed through verbatim — it is not
capped by the number of submitted commands. -/
def pool_size_arg (num_containers : Nat) (commands : List String) : Nat :=
  num_containers

/-- State of one in-flight dispatch: commands submitted but not yet picked
up by a worker (the pool's FIFO work queue), commands currently executing
on a worker, and the results appended so far in completion order. -/
structure PoolState where
  pending : List String
  running : List String
  done : List Outcome
deriving DecidableEq, Repr

/-- Small-step semantics of one dispatch through
`ThreadPoolExecutor(max_workers=w)`, per that class's contract: a queued
task starts only while fewer than `w` tasks are executing (`start`), and a
running task finishes by recording its executor result (`finish`). -/
inductive PoolStep (exec : String → Outcome) (w : Nat) : PoolState → PoolState → Prop where
  | start (c : String) (pending running done) :
      running.length < w →
      PoolStep exec w ⟨c :: pending, running, done⟩ ⟨pending, running ++ [c], done⟩
  | finish (c : String) (pending r1 r2 done) :
      PoolStep exec w ⟨pending, r1 ++ c :: r2, done⟩ ⟨pending, r1 ++ r2, done ++ [exec c]⟩

/-- States reachable during a dispatch of `commands` with worker bound `w`,
starting from the all-submitted, none-started state. -/
def PoolReachable (exec : String → Outcome) (w : Nat) (commands : List String)
    (s : PoolState) : Prop :=
  Relation.ReflTransGen (PoolStep exec w) ⟨commands, [], []⟩ s

/-- Python truthiness of an `Optional[str]` as used by `if stdout:`:
`None` and the empty string are falsy, any other string is truthy. -/
def truthyOpt (o : Option String) : Bool :=
  match o with
  | some s => !s.isEmpty
  | none => false

/-- Rendering of an `Optional[str]` inside a Python f-string: `None`
renders as the string `"None"`. -/
def pyRepr (o : Option String) : String :=
  match o with
  | some s => s
  | none => "None"

/-- The `"=" * 50` separator used by the report. -/
def eqBar : String := String.join (List.replicate 50 "=")

/-- One iteration of the result loop in `aggregate_and_display_results`
(docker_runner.py, lines 89-98): a truthy stdout prints the SUCCESS block
and increments `successful_runs`, otherwise the FAILED block is printed
(formatting the possibly-`None` stderr into the f-string) and `failed_runs`
is incremented; each block is followed by a blank `print()`. -/
def display_fold (acc : List String × Nat × Nat) (o : Outcome) : List String × Nat × Nat :=
  if truthyOpt o.2.1 then
    (acc.1 ++ ["Container " ++ o.1 ++ ": SUCCESS", "  Output: " ++ pyRepr o.2.1, ""],
      acc.2.1 + 1, acc.2.2)
  else
    (acc.1 ++ ["Container " ++ o.1 ++ ": FAILED", "  Error: " ++ pyRepr o.2.2, ""],
      acc.2.1, acc.2.2 + 1)

/-- `aggregate_and_display_results` (docker_runner.py, lines 75-102):
header, one block per result classifying it by the truthiness of its
stdout field, then the summary counting successes and failures. Returns
the printed lines together with the two counters. -/
def aggregate_and_display_results (results : List Outcome) : List String × Nat × Nat :=
  let body :=
    results.foldl display_fold
      (["\n" ++ eqBar, "DOCKER CONTAINER RESULTS", eqBar ++ "\n"], 0, 0)
  (body.1 ++
      [eqBar, "SUMMARY: " ++ toString body.2.1 ++ " successful, " ++
        toString body.2.2 ++ " failed", eqBar],
    body.2.1, body.2.2)

/-- Reference Fibonacci values, used to relate the two functions of
testit.py: the sequence 0, 1, 1, 2, ... -/
def specFib : Nat → Int
  | 0 => 0
  | 1 => 1
  | n + 2 => specFib n + specFib (n + 1)

/-- One iteration of the loop body of `fibonacci` (testit.py, lines 13-15):
append `fib_sequence[-1] + fib_sequence[-2]` to the sequence. -/
def fibStep (s : List Int) : List Int :=
  s ++ [s.getLastD 0 + s.dropLast.getLastD 0]

/-- The `for i in range(2, n)` loop of `fibonacci`, iterated a fixed number
of times. -/
def fibLoop : Nat → List Int → List Int
  | 0, s => s
  | f + 1, s => fibLoop f (fibStep s)

/-- `fibonacci` (testit.py, lines 3-17): empty list for `n <= 0`, the
explicit bases for `n` equal to 1 or 2, and otherwise the iterative loop
extending `[0, 1]` by `n - 2` appended terms. -/
def fibonacci (n : Int) : List Int :=
  if n ≤ 0 then []
  else if n = 1 then [0]
  else if n = 2 then [0, 1]
  else fibLoop (n.toNat - 2) [0, 1]

/-- `fibonacci_recursive` (testit.py, lines 19-28): `None` for `n <= 0`,
bases 0 and 1 for `n` equal to 1 and 2, and otherwise the sum of the two
recursive calls (for `n >= 3` both calls return numbers, so the addition is
the numeric one). -/
def fibonacci_recursive (n : Int) : Option Int :=
  if h0 : n ≤ 0 then none
  else if h1 : n = 1 then some 0
  else if h2 : n = 2 then some 1
  else
    match fibonacci_recursive (n - 1), fibonacci_recursive (n - 2) with
    | some a, some b => some (a + b)
    | _, _ => none
termination_by n.toNat
decreasing_by
  all_goals omega

/-! ### Helper lemmas -/

lemma foldl_append_eq (exec : String → Outcome) :
    ∀ (order : List String) (acc : List Outcome),
      order.foldl (fun results c => results ++ [exec c]) acc = acc ++ order.map exec := by
  intro order
  induction order with
  | nil => intro acc; simp
  | cons c cs ih =>
    intro acc
    simp only [List.foldl_cons, List.map_cons]
    rw [ih]
    simp

lemma collect_as_completed_eq_map (exec : String → Outcome) (order : List String) :
    collect_as_completed exec order = order.map exec := by
  rw [collect_as_completed, foldl_append_eq]
  simp

lemma byIndex_antisymm_of_mem :
    ∀ (l1 l2 : List Outcome), l1.Perm l2 → l1.Pairwise byIndex → l2.Pairwise byIndex →
      (l1.map Prod.fst).Nodup → l1 = l2 := by
  intro l1
  induction l1 with
  | nil =>
    intro l2 hp _ _ _
    exact hp.symm.eq_nil.symm
  | cons a t1 ih =>
    intro l2 hp hs1 hs2 hnd
    cases l2 with
    | nil => exact absurd hp.eq_nil (by simp)
    | cons b t2 =>
      have hab : a = b := by
        by_contra hne
        have hbmem : b ∈ a :: t1 := hp.mem_iff.mpr (List.mem_cons_self b t2)
        have hamem : a ∈ b :: t2 := hp.mem_iff.mp (List.mem_cons_self a t1)
        have hb : b ∈ t1 := by
          rcases List.mem_cons.mp hbmem with h | h
          · exact absurd h.symm hne
          · exact h
        have ha : a ∈ t2 := by
          rcases List.mem_cons.mp hamem with h | h
          · exact absurd h hne
          · exact h
        have h1 : byIndex a b := (List.pairwise_cons.mp hs1).1 b hb
        have h2 : byIndex b a := (List.pairwise_cons.mp hs2).1 a ha
        have hkey : a.1 = b.1 := le_antisymm h1 h2
        have hmem1 : b.1 ∈ t1.map Prod.fst := List.mem_map_of_mem Prod.fst hb
        have hnd' : (a.1 :: t1.map Prod.fst).Nodup := by
          rw [List.map_cons] at hnd; exact hnd
        have hnd1 : a.1 ∉ t1.map Prod.fst := (List.nodup_cons.mp hnd').1
        rw [hkey] at hnd1
        exact hnd1 hmem1
      subst hab
      have hperm : t1.Perm t2 := hp.cons_inv
      have hnd' : (a.1 :: t1.map Prod.fst).Nodup := by
        rw [List.map_cons] at hnd; exact hnd
      have htail := ih t2 hperm (List.pairwise_cons.mp hs1).2 (List.pairwise_cons.mp hs2).2
        (List.nodup_cons.mp hnd').2
      rw [htail]

lemma map_fst_map_exec (exec : String → Outcome) (hid : ∀ c, (exec c).1 = c)
    (l : List String) : (l.map exec).map Prod.fst = l := by
  rw [List.map_map]
  have : l.map (Prod.fst ∘ exec) = l.map id := List.map_congr_left (fun c _ => hid c)
  rw [this, List.map_id]

lemma sortByIndex_perm (l : List Outcome) : (sortByIndex l).Perm l :=
  List.perm_insertionSort byIndex l

lemma sortByIndex_sorted (l : List Outcome) : (sortByIndex l).Pairwise byIndex :=
  List.sorted_insertionSort byIndex l

lemma run_containers_parallel_canonical (exec : String → Outcome) (w : Nat)
    (commands order : List String) (hid : ∀ c, (exec c).1 = c) (hnd : commands.Nodup)
    (hperm : order.Perm commands) :
    run_containers_parallel exec w order = sortByIndex (commands.map exec) := by
  rw [run_containers_parallel, collect_as_completed_eq_map]
  apply byIndex_antisymm_of_mem
  · exact (sortByIndex_perm _).trans ((hperm.map exec).trans (sortByIndex_perm _).symm)
  · exact sortByIndex_sorted _
  · exact sortByIndex_sorted _
  · have hkeys : ((order.map exec).map Prod.fst).Nodup := by
      rw [map_fst_map_exec exec hid]
      exact hperm.nodup_iff.mpr hnd
    exact (((sortByIndex_perm (order.map exec)).map Prod.fst).nodup_iff).mpr hkeys

lemma pool_running_bound (exec : String → Outcome) (w : Nat) (commands : List String)
    (s : PoolState) (h : PoolReachable exec w commands s) : s.running.length ≤ w := by
  induction h with
  | refl => simp
  | tail hsteps step ih =>
    cases step with
    | start c pending running done hlt =>
      simp only [List.length_append, List.length_cons, List.length_nil]
      simp only at ih
      omega
    | finish c pending r1 r2 done =>
      simp only [List.length_append, List.length_cons] at ih ⊢
      omega

lemma display_fold_counts (results : List Outcome) :
    ∀ acc : List String × Nat × Nat,
      (results.foldl display_fold acc).2.1 =
        acc.2.1 + (results.filter (fun o => truthyOpt o.2.1)).length ∧
      (results.foldl display_fold acc).2.2 =
        acc.2.2 + (results.filter (fun o => !truthyOpt o.2.1)).length := by
  induction results with
  | nil => intro acc; simp
  | cons o rest ih =>
    intro acc
    by_cases htr : truthyOpt o.2.1 = true
    · simp only [List.foldl_cons, List.filter_cons, htr]
      rw [(ih _).1, (ih _).2]
      simp [display_fold, htr]
      omega
    · simp only [List.foldl_cons, List.filter_cons, htr]
      rw [(ih _).1, (ih _).2]
      simp only [Bool.not_eq_true] at htr
      simp [display_fold, htr]
      omega

lemma filter_truthy_length (results : List Outcome) :
    (results.filter (fun o => truthyOpt o.2.1)).length +
      (results.filter (fun o => !truthyOpt o.2.1)).length = results.length := by
  induction results with
  | nil => rfl
  | cons o rest ih =>
    by_cases h : truthyOpt o.2.1 = true
    · simp [List.filter_cons, h]
      omega
    · simp only [Bool.not_eq_true] at h
      simp [List.filter_cons, h]
      omega

lemma fibStep_range (m : Nat) :
    fibStep ((List.range (m + 2)).map specFib) = (List.range (m + 3)).map specFib := by
  rw [fibStep]
  rw [show m + 2 = (m + 1) + 1 from rfl, List.range_succ, List.map_append]
  simp only [List.map_cons, List.map_nil]
  rw [List.dropLast_concat]
  rw [show ((List.range (m + 1)).map specFib).getLastD 0 = specFib m from by
    rw [List.range_succ, List.map_append]
    simp [List.getLastD_concat]]
  simp only [List.getLastD_concat]
  rw [show m + 3 = (m + 2) + 1 from rfl, List.range_succ (m + 2), List.map_append]
  rw [show m + 2 = (m + 1) + 1 from rfl, List.range_succ (m + 1), List.map_append]
  simp only [List.map_cons, List.map_nil]
  rw [show specFib (m + 1 + 1) = specFib m + specFib (m + 1) from rfl]
  simp [Int.add_comm]

lemma fibLoop_range (f : Nat) :
    ∀ m : Nat, fibLoop f ((List.range (m + 2)).map specFib) =
      (List.range (m + 2 + f)).map specFib := by
  induction f with
  | zero => intro m; rfl
  | succ g ih =>
    intro m
    rw [fibLoop, fibStep_range m]
    rw [show m + 3 = (m + 1) + 2 from rfl, ih (m + 1)]
    rw [show m + 1 + 2 + g = m + 2 + (g + 1) from by omega]

lemma fibonacci_eq_range_map (n : Int) (hn : 1 ≤ n) :
    fibonacci n = (List.range n.toNat).map specFib := by
  rw [fibonacci]
  rw [if_neg (by omega)]
  by_cases h1 : n = 1
  · rw [if_pos h1, h1]
    decide
  · rw [if_neg h1]
    by_cases h2 : n = 2
    · rw [if_pos h2, h2]
      decide
    · rw [if_neg h2]
      have h3 : (3 : Int) ≤ n := by omega
      have ht : 3 ≤ n.toNat := by omega
      obtain ⟨m, hm⟩ : ∃ m, n.toNat - 2 = m + 1 := ⟨n.toNat - 3, by omega⟩
      rw [show ([0, 1] : List Int) = (List.range (0 + 2)).map specFib from by decide]
      rw [fibLoop_range (n.toNat - 2) 0]
      rw [show 0 + 2 + (n.toNat - 2) = n.toNat from by omega]

lemma fibonacci_recursive_eq (m : Nat) :
    fibonacci_recursive ((m : Int) + 1) = some (specFib m) := by
  induction m using Nat.strong_induction_on with
  | _ m ih =>
    match m with
    | 0 =>
      rw [fibonacci_recursive]
      norm_num [specFib]
    | 1 =>
      rw [fibonacci_recursive]
      norm_num [specFib]
    | k + 2 =>
      rw [fibonacci_recursive]
      rw [dif_neg (by push_cast; omega), dif_neg (by push_cast; omega),
        dif_neg (by push_cast; omega)]
      push_cast
      rw [show ((k : Int) + 2 + 1 - 1) = ((k + 1 : Nat) : Int) + 1 from by push_cast; ring]
      rw [show ((k : Int) + 2 + 1 - 2) = ((k : Nat) : Int) + 1 from by push_cast; ring]
      rw [ih (k + 1) (by omega), ih k (by omega)]
      rw [show specFib (k + 2) = specFib k + specFib (k + 1) from rfl]
      simp [Int.add_comm]

lemma run_docker_container_raises (env : Env) (command : String) :
    run_docker_container env command = PyResult.exn "NameError" := by
  unfold run_docker_container
  cases env command with
  | completed code out err => cases code <;> rfl
  | startFailure msg => rfl

lemma run_containers_parallel_run_raises (env : Env) (w : Nat) (c : String) (cs : List String) :
    run_containers_parallel_run env w (c :: cs) = PyResult.exn "NameError" := by
  rw [run_containers_parallel_run, collect_results, run_docker_container_raises]

lemma error_append_ne_empty (s : String) : "Error: " ++ s ≠ "" := by
  intro h
  have hlen : ("Error: " ++ s).length = 0 := by rw [h]; rfl
  rw [String.length_append] at hlen
  have h7 : "Error: ".length = 7 := rfl
  rw [h7] at hlen
  omega

/-! ### Claim theorems -/

/-- C1: for every task list with unique identifiers, every worker bound
and every completion order, both dispatchers return exactly one Outcome
per task identifier — same length as the input, identifiers a permutation
of the task list, no duplicates, no omissions — and each task's outcome is
exactly its executor result (so one failing outcome never affects a
sibling, and an all-failing batch still yields one entry per task). -/
theorem C1_dispatch_complete (exec : String → Outcome) (w : Nat)
    (commands order : List String) (hid : ∀ c, (exec c).1 = c)
    (hnd : commands.Nodup) (hperm : order.Perm commands) :
    (run_containers_parallel exec w order).length = commands.length ∧
    ((run_containers_parallel exec w order).map Prod.fst).Perm commands ∧
    ((run_containers_parallel exec w order).map Prod.fst).Nodup ∧
    (∀ c ∈ commands, exec c ∈ run_containers_parallel exec w order) ∧
    (DockerRunnerGUI.run_containers_parallel exec w order).length = commands.length ∧
    ((DockerRunnerGUI.run_containers_parallel exec w order).map Prod.fst).Perm commands ∧
    (∀ c ∈ commands, exec c ∈ DockerRunnerGUI.run_containers_parallel exec w order) := by
  have hcli : (run_containers_parallel exec w order).Perm (commands.map exec) := by
    rw [run_containers_parallel, collect_as_completed_eq_map]
    exact (sortByIndex_perm _).trans (hperm.map exec)
  have hgui : DockerRunnerGUI.run_containers_parallel exec w order = order.map exec := by
    rw [DockerRunnerGUI.run_containers_parallel, collect_as_completed_eq_map]
  have hguip : (DockerRunnerGUI.run_containers_parallel exec w order).Perm
      (commands.map exec) := by
    rw [hgui]
    exact hperm.map exec
  have hclif := hcli.map Prod.fst
  rw [map_fst_map_exec exec hid] at hclif
  have hguif := hguip.map Prod.fst
  rw [map_fst_map_exec exec hid] at hguif
  refine ⟨?_, hclif, ?_, ?_, ?_, hguif, ?_⟩
  · rw [hcli.length_eq, List.length_map]
  · exact hclif.nodup_iff.mpr hnd
  · intro c hc
    exact hcli.symm.subset (List.mem_map_of_mem exec hc)
  · rw [hguip.length_eq, List.length_map]
  · intro c hc
    exact hguip.symm.subset (List.mem_map_of_mem exec hc)

/-- Witness for C1: a concrete dispatch of two tasks, both failing, in
reversed completion order, still returns two outcomes. -/
theorem C1_dispatch_complete_witness :
    (run_containers_parallel (fun c => (c, none, some "Error: boom")) 1 ["a", "b"]).length = 2 :=
  (C1_dispatch_complete (fun c => (c, none, some "Error: boom")) 1 ["b", "a"] ["a", "b"]
    (fun _ => rfl) (by decide) (by decide)).1

/-- C2: the CLI Executor breaks its never-propagate contract. For every
environment behaviour — exit 0, non-zero exit, start failure — the CLI
`run_docker_container` raises `NameError` instead of returning an Outcome,
because each of its `return` statements references the undefined name
`index`. -/
theorem C2_cli_executor_raises (env : Env) (command : String) :
    run_docker_container env command = PyResult.exn "NameError" :=
  run_docker_container_raises env command

/-- C3 counterexample: the GUI dispatcher does not sort. The same two-task
list dispatched under two different completion orders (each a permutation
of the submitted commands, with the file's own executor over a fixed
environment) yields differently ordered BatchResults. -/
theorem C3_counterexample :
    (["b", "a"] : List String).Perm ["a", "b"] ∧
    DockerRunnerGUI.run_containers_parallel
        (DockerRunnerGUI.run_docker_container (fun c => .completed 0 c "")) 5 ["b", "a"] ≠
      DockerRunnerGUI.run_containers_parallel
        (DockerRunnerGUI.run_docker_container (fun c => .completed 0 c "")) 5 ["a", "b"] := by
  constructor
  · decide
  · decide

/-- C3 (amended): the CLI dispatcher sorts the collected outcomes by task
identifier before returning, so its BatchResult is identical for any two
completion orders of the same task list and is sorted by identifier; the
GUI dispatcher instead returns outcomes in completion order, unsorted. -/
theorem C3_cli_sorted_deterministic (exec : String → Outcome) (w : Nat)
    (commands o1 o2 : List String) (hid : ∀ c, (exec c).1 = c) (hnd : commands.Nodup)
    (h1 : o1.Perm commands) (h2 : o2.Perm commands) :
    run_containers_parallel exec w o1 = run_containers_parallel exec w o2 ∧
    (run_containers_parallel exec w o1).Pairwise byIndex ∧
    DockerRunnerGUI.run_containers_parallel exec w o1 = o1.map exec := by
  refine ⟨?_, ?_, ?_⟩
  · rw [run_containers_parallel_canonical exec w commands o1 hid hnd h1,
      run_containers_parallel_canonical exec w commands o2 hid hnd h2]
  · rw [run_containers_parallel, collect_as_completed_eq_map]
    exact sortByIndex_sorted _
  · rw [DockerRunnerGUI.run_containers_parallel, collect_as_completed_eq_map]

/-- Witness for C3 (amended): two concrete completion orders of the same
two-task list give the same CLI BatchResult. -/
theorem C3_cli_sorted_deterministic_witness :
    run_containers_parallel (fun c => (c, some c, none)) 2 ["b", "a"] =
      run_containers_parallel (fun c => (c, some c, none)) 2 ["a", "b"] :=
  (C3_cli_sorted_deterministic (fun c => (c, some c, none)) 2 ["a", "b"] ["b", "a"] ["a", "b"]
    (fun _ => rfl) (by decide) (by decide) (by decide)).1

/-- C4 counterexample: a zero-exit process whose stdout trims to the empty
string yields the Outcome `(task, some "", none)`: its output is set but
empty and its error is none, so neither field is a non-empty string —
refuting the claimed "never neither" non-emptiness at exactly the empty
stdout / zero exit case the claim includes. -/
theorem C4_counterexample :
    DockerRunnerGUI.run_docker_container (fun _ => .completed 0 "   " "") "task" =
      ("task", some "", none) ∧
    truthyOpt
      (DockerRunnerGUI.run_docker_container (fun _ => .completed 0 "   " "") "task").2.1 =
      false ∧
    truthyOpt
      (DockerRunnerGUI.run_docker_container (fun _ => .completed 0 "   " "") "task").2.2 =
      false := by
  refine ⟨by decide, by decide, by decide⟩

/-- C4 (amended): every Outcome produced by the GUI Executor has exactly
one of {output, error} set (non-None) — output set on zero exit, error set
otherwise — and the error string, when set, is non-empty; the output
string, however, may be empty (zero exit with whitespace-only stdout), so
the invariant is about the fields being set, not non-empty. -/
theorem C4_exactly_one_set (env : Env) (command : String) :
    ((DockerRunnerGUI.run_docker_container env command).2.1.isSome ∧
      (DockerRunnerGUI.run_docker_container env command).2.2 = none) ∨
    ((DockerRunnerGUI.run_docker_container env command).2.1 = none ∧
      ∃ e, (DockerRunnerGUI.run_docker_container env command).2.2 = some e ∧ e ≠ "") := by
  unfold DockerRunnerGUI.run_docker_container
  cases env command with
  | completed code out err =>
    cases code with
    | zero =>
      left
      exact ⟨rfl, rfl⟩
    | succ k =>
      right
      exact ⟨rfl, "Error: " ++ pyStrip err, rfl, error_append_ne_empty (pyStrip err)⟩
  | startFailure msg =>
    right
    exact ⟨rfl, "Error: " ++ msg, rfl, error_append_ne_empty msg⟩

/-- C5 counterexample: at exit status 0 with stdout "hello" the CLI
Executor raises NameError instead of returning an Outcome whose output is
"hello". -/
theorem C5_counterexample :
    run_docker_container (fun _ => .completed 0 "hello" "") "t" = PyResult.exn "NameError" :=
  rfl

/-- C5 (amended): for the GUI Executor, a zero exit yields an Outcome
whose output is the captured stdout with surrounding whitespace trimmed
and whose error is none; the CLI Executor instead raises NameError (see
C2) and never returns such an Outcome. -/
theorem C5_gui_success_mapping (env : Env) (command stdout stderr : String)
    (h : env command = .completed 0 stdout stderr) :
    DockerRunnerGUI.run_docker_container env command = (command, some (pyStrip stdout), none) := by
  unfold DockerRunnerGUI.run_docker_container
  rw [h]

/-- Witness for C5 (amended): stdout "hello" with exit 0 yields output
"hello" and error none. -/
theorem C5_gui_success_mapping_witness :
    DockerRunnerGUI.run_docker_container (fun _ => .completed 0 "hello" "") "t" =
      ("t", some "hello", none) := by
  rw [C5_gui_success_mapping (fun _ => .completed 0 "hello" "") "t" "hello" "" rfl]
  decide

/-- C6 counterexample: at exit status 2 with stderr "boom" the CLI
Executor raises NameError instead of returning an Outcome whose error
embeds "boom". -/
theorem C6_counterexample :
    run_docker_container (fun _ => .completed 2 "" "boom") "t" = PyResult.exn "NameError" :=
  rfl

/-- C6 (amended): for the GUI Executor, a non-zero exit yields an Outcome
whose output is none and whose error is the formatted string "Error: "
followed by the trimmed captured stderr; the CLI Executor instead raises
NameError (see C2) and never returns such an Outcome. -/
theorem C6_gui_failure_mapping (env : Env) (command : String) (k : Nat)
    (stdout stderr : String) (h : env command = .completed (k + 1) stdout stderr) :
    DockerRunnerGUI.run_docker_container env command =
      (command, none, some ("Error: " ++ pyStrip stderr)) := by
  unfold DockerRunnerGUI.run_docker_container
  rw [h]
  rfl

/-- Witness for C6 (amended): exit 2 with stderr " boom " yields no output
and the error "Error: boom", which contains "boom". -/
theorem C6_gui_failure_mapping_witness :
    DockerRunnerGUI.run_docker_container (fun _ => .completed 2 "" " boom ") "t" =
      ("t", none, some ("Error: " ++ "boom")) ∧
    ∃ p q, "Error: " ++ "boom" = p ++ "boom" ++ q := by
  constructor
  · rw [C6_gui_failure_mapping (fun _ => .completed 2 "" " boom ") "t" 1 "" " boom " rfl]
    decide
  · exact ⟨"Error: ", "", by decide⟩

/-- C7 (amended): an invalid worker count — non-integer or below 1 — is
rejected before any dispatch in both variants: the CLI prints the usage
message and exits 1 whatever the environment (no executor invocation can
be observed), and the GUI validate_max_workers yields None, making
run_containers return before dispatching. A valid worker count, however,
does not lead to exit status 0 in the current CLI: the dispatch crashes
with the Executor's uncaught NameError. -/
theorem C7_config_validation :
    (∀ (env : Env) (s : String), int_parse s = none →
      main_cli env (some s) = CliExit.usage) ∧
    (∀ (env : Env) (s : String) (n : Int), int_parse s = some n → n < 1 →
      main_cli env (some s) = CliExit.usage) ∧
    (∀ (env : Env) (s : String) (n : Int), int_parse s = some n → 1 ≤ n →
      main_cli env (some s) = CliExit.crashed "NameError") ∧
    (∀ s : String, int_parse s = none → DockerRunnerGUI.validate_max_workers s = none) ∧
    (∀ (s : String) (n : Int), int_parse s = some n → n < 1 →
      DockerRunnerGUI.validate_max_workers s = none) := by
  refine ⟨?_, ?_, ?_, ?_, ?_⟩
  · intro env s h
    have hp : parse_num_containers (some s) = none := by
      simp only [parse_num_containers, h]
    simp only [main_cli, hp]
  · intro env s n h hn
    have hp : parse_num_containers (some s) = none := by
      simp only [parse_num_containers, h]
      rw [if_pos hn]
    simp only [main_cli, hp]
  · intro env s n h hn
    have hp : parse_num_containers (some s) = some n.toNat := by
      simp only [parse_num_containers, h]
      rw [if_neg (by omega)]
    simp only [main_cli, hp]
    rw [show main_commands = "test 1" :: ["test 2", "test 3"] from rfl]
    rw [run_containers_parallel_run_raises]
  · intro s h
    simp only [DockerRunnerGUI.validate_max_workers, h]
  · intro s n h hn
    simp only [DockerRunnerGUI.validate_max_workers, h]
    rw [if_pos hn]

/-- Witness for C7 (amended) at the concrete inputs "abc", "0" and "3". -/
theorem C7_config_validation_witness :
    main_cli (fun _ => .completed 0 "ok" "") (some "abc") = CliExit.usage ∧
    main_cli (fun _ => .completed 0 "ok" "") (some "0") = CliExit.usage ∧
    main_cli (fun _ => .completed 0 "ok" "") (some "3") = CliExit.crashed "NameError" ∧
    DockerRunnerGUI.validate_max_workers "abc" = none ∧
    DockerRunnerGUI.validate_max_workers "0" = none :=
  ⟨C7_config_validation.1 _ "abc" (by decide),
   C7_config_validation.2.1 _ "0" 0 (by decide) (by decide),
   C7_config_validation.2.2.1 _ "3" 3 (by decide) (by decide),
   C7_config_validation.2.2.2.1 "abc" (by decide),
   C7_config_validation.2.2.2.2 "0" 0 (by decide) (by decide)⟩

/-- C7 counterexample: a run with the valid worker count "7" does not exit
0 after printing the report — the CLI main crashes with the Executor's
uncaught NameError (non-zero interpreter exit), refuting the claimed
valid-input behaviour. -/
theorem C7_counterexample :
    main_cli (fun c => .completed 0 c "") (some "7") = CliExit.crashed "NameError" := by
  decide

/-- C8: the worker pool is created with exactly the requested bound — the
argument is passed through verbatim, never capped by the task count — and
in every state reachable during a dispatch, no more than `w` executor
invocations are running concurrently. -/
theorem C8_pool_bound (exec : String → Outcome) (w : Nat) (commands : List String)
    (s : PoolState) (h : PoolReachable exec w commands s) :
    pool_size_arg w commands = w ∧ s.running.length ≤ w :=
  ⟨rfl, pool_running_bound exec w commands s h⟩

/-- Witness for C8: three tasks dispatched with bound 2, observed after
the first task starts. -/
theorem C8_pool_bound_witness :
    pool_size_arg 2 ["a", "b", "c"] = 2 ∧
    (PoolState.mk ["b", "c"] ["a"] []).running.length ≤ 2 :=
  C8_pool_bound (fun c => (c, some c, none)) 2 ["a", "b", "c"] ⟨["b", "c"], ["a"], []⟩
    (Relation.ReflTransGen.tail Relation.ReflTransGen.refl
      (PoolStep.start "a" ["b", "c"] [] [] (by decide)))

/-- C9: the report counts an Outcome as successful exactly when its stdout
field is truthy (a non-empty string) and as failed otherwise, the two
counters partition the result list, and the zero-exit outcome whose
trimmed stdout is empty is rendered FAILED with its `None` error printed
literally. -/
theorem C9_report_classification (results : List Outcome) :
    (aggregate_and_display_results results).2.1 =
      (results.filter (fun o => truthyOpt o.2.1)).length ∧
    (aggregate_and_display_results results).2.2 =
      (results.filter (fun o => !truthyOpt o.2.1)).length ∧
    (aggregate_and_display_results results).2.1 +
      (aggregate_and_display_results results).2.2 = results.length ∧
    "Container c: FAILED" ∈
      (aggregate_and_display_results
        [DockerRunnerGUI.run_docker_container (fun _ => .completed 0 "   " "") "c"]).1 ∧
    "  Error: None" ∈
      (aggregate_and_display_results
        [DockerRunnerGUI.run_docker_container (fun _ => .completed 0 "   " "") "c"]).1 ∧
    (aggregate_and_display_results
        [DockerRunnerGUI.run_docker_container (fun _ => .completed 0 "   " "") "c"]).2.2 = 1 := by
  have hs := (display_fold_counts results
    (["\n" ++ eqBar, "DOCKER CONTAINER RESULTS", eqBar ++ "\n"], 0, 0)).1
  have hf := (display_fold_counts results
    (["\n" ++ eqBar, "DOCKER CONTAINER RESULTS", eqBar ++ "\n"], 0, 0)).2
  refine ⟨?_, ?_, ?_, by decide, by decide, by decide⟩
  · rw [aggregate_and_display_results]
    simpa using hs
  · rw [aggregate_and_display_results]
    simpa using hf
  · rw [aggregate_and_display_results]
    simp only []
    rw [hs, hf]
    simpa using filter_truthy_length results

/-- C10: for every integer n, the recursive Fibonacci equals the last
element of the iterative Fibonacci list when n is at least 1, the list has
exactly n elements then, and the list is empty for n at most 0. -/
theorem C10_fib_agree (n : Int) :
    (1 ≤ n → (fibonacci n).getLast? = fibonacci_recursive n ∧
      (fibonacci n).length = n.toNat) ∧
    (n ≤ 0 → fibonacci n = []) := by
  constructor
  · intro hn
    have hrange := fibonacci_eq_range_map n hn
    obtain ⟨m, hm⟩ : ∃ m, n.toNat = m + 1 := ⟨n.toNat - 1, by omega⟩
    constructor
    · rw [hrange, hm, List.range_succ, List.map_append]
      simp only [List.map_cons, List.map_nil]
      rw [List.getLast?_concat]
      rw [show n = (m : Int) + 1 from by omega]
      rw [fibonacci_recursive_eq m]
    · rw [hrange, List.length_map, List.length_range]
  · intro hn
    rw [fibonacci, if_pos hn]

/-- Witness for C10 at n = 5 and n = -3. -/
theorem C10_fib_agree_witness :
    ((fibonacci 5).getLast? = fibonacci_recursive 5 ∧ (fibonacci 5).length = (5 : Int).toNat) ∧
    fibonacci (-3) = [] :=
  ⟨(C10_fib_agree 5).1 (by norm_num), (C10_fib_agree (-3)).2 (by norm_num)⟩
